import Mathlib

/-!
Shallow embedding of the EasyDeploy VS Code extension's client and tracker
logic (src/easydeploy-vscode/src/client.ts, widget.ts, extension.ts).

JavaScript values that flow through the HTTP layer are modelled by the
inductive `JVal`; JavaScript truthiness, optional chaining and the `||`
default operator are modelled explicitly.  Axios calls are modelled by an
`AxiosOutcome` parameter: either a 2xx response with a JSON body, an HTTP
error response (status, body, message), a network error (request sent, no
response), or a request-setup error — matching the three branches axios
exposes on its error object (`error.response`, `error.request`, else).
-/

namespace EasyDeploy

/-- ASCII lowering of one character, the fragment of
JavaScript `toLowerCase()` relevant to the status strings in the source. -/
def lowerChar (c : Char) : Char :=
  if 'A' ≤ c ∧ c ≤ 'Z' then Char.ofNat (c.toNat + 32) else c

/-- ASCII lowering of a string (model of `s.toLowerCase()`). -/
def lowerStr (s : String) : String :=
  ⟨s.data.map lowerChar⟩

/-- JSON-like JavaScript values. -/
inductive JVal where
  | jnull
  | jbool (b : Bool)
  | jnum (n : Int)
  | jstr (s : String)
  | jarr (elems : List JVal)
  | jobj (fields : List (String × JVal))

/-- Null-safe property lookup: the model of optional-chained access
`v?.k` (and of plain access on a value known not to be `null`): field
lookup on objects, `undefined` (here `none`) on every other value,
including `null`.  Plain access `v.k`, which throws on `null`, is
`JVal.getProp` below. -/
def JVal.getField : JVal → String → Option JVal
  | .jobj fields, k => (fields.find? (fun p => p.1 = k)).map Prod.snd
  | _, _ => none

/-- Plain property access `v.k`: on `null` it throws a `TypeError`
(modelled as the error case, carrying the message the catch blocks would
observe); on any non-null value it is the safe lookup — primitives are
boxed and yield `undefined` rather than throwing. -/
def JVal.getProp : JVal → String → Except String (Option JVal)
  | .jnull, k =>
      .error ("TypeError: Cannot read properties of null (reading " ++ k ++ ")")
  | v, k => .ok (v.getField k)

/-- JavaScript truthiness of a defined value. -/
def JVal.truthy : JVal → Bool
  | .jnull => false
  | .jbool b => b
  | .jnum n => n != 0
  | .jstr s => s != ""
  | .jarr _ => true
  | .jobj _ => true

/-- Truthiness of a possibly-`undefined` value. -/
def truthyOpt : Option JVal → Bool
  | none => false
  | some v => v.truthy

/-- Model of `Array.isArray`. -/
def JVal.isArr : JVal → Bool
  | .jarr _ => true
  | _ => false

/-- JavaScript `v || d` for a possibly-`undefined` value `v`. -/
def jvalOr (v : Option JVal) (d : JVal) : JVal :=
  match v with
  | some x => if x.truthy then x else d
  | none => d

/-- JavaScript `m || d` on strings (empty string is falsy). -/
def strOr (m d : String) : String :=
  if m = "" then d else m

/-- String conversion used by template literals; arrays and objects are
approximated (their rendering is never relevant to a claim). -/
def jsShow : JVal → String
  | .jnull => "null"
  | .jbool b => if b then "true" else "false"
  | .jnum n => toString n
  | .jstr s => s
  | .jarr _ => ""
  | .jobj _ => "[object Object]"

/-- String conversion of a possibly-`undefined` value. -/
def jsShowOpt : Option JVal → String
  | none => "undefined"
  | some v => jsShow v

/-- Approximate `JSON.stringify`, used only inside error message text. -/
def JVal.render : JVal → String
  | .jnull => "null"
  | .jbool b => if b then "true" else "false"
  | .jnum n => toString n
  | .jstr s => "\"" ++ s ++ "\""
  | .jarr xs => "[" ++ String.intercalate "," (xs.attach.map (fun x => x.1.render)) ++ "]"
  | .jobj fs =>
      "\x7b" ++
        String.intercalate ","
          (fs.attach.map (fun p => "\"" ++ p.1.1 ++ "\":" ++ p.1.2.render)) ++
      "\x7d"
decreasing_by
  all_goals
    simp_wf
  · have := List.sizeOf_lt_of_mem x.2
    omega
  · have h1 := List.sizeOf_lt_of_mem p.2
    rcases p with ⟨⟨a, b⟩, hp⟩
    simp_all
    omega

/-- Outcome of one axios request, as observed by the `try`/`catch`
blocks of client.ts. -/
inductive AxiosOutcome where
  | ok (data : JVal)
  | httpError (status : Nat) (data : JVal) (message : String)
  | networkError (message : String)
  | setupError (message : String)

/-! ### client.ts — EasyDeployClient -/

/-- Response-shape handling inside `listDeployments` (client.ts):
`if (response.data.deployments) return response.data.deployments || [];
else if (Array.isArray(response.data)) return response.data; else return [];`
On a `null` body the `response.data.deployments` access throws, which the
surrounding catch observes. -/
def listDeploymentsData (data : JVal) : Except String JVal :=
  match data.getProp "deployments" with
  | .error m => .error m
  | .ok dep =>
    if truthyOpt dep then .ok (jvalOr dep (.jarr []))
    else if data.isArr then .ok data
    else .ok (.jarr [])

/-- `EasyDeployClient.listDeployments`: normalizes the 2xx body and rethrows
errors with branch-dependent message strings (`error.response` /
`error.request` / other).  A `TypeError` thrown while reading a `null`
2xx body has neither `response` nor `request` set, so it is rethrown
through the final branch with its own message. -/
def listDeployments (outcome : AxiosOutcome) : Except String JVal :=
  match outcome with
  | .ok data =>
    match listDeploymentsData data with
    | .ok v => .ok v
    | .error m => .error (strOr m "Failed to list deployments")
  | .httpError status data _ =>
      .error ("API error: " ++ toString status ++ " - " ++ data.render)
  | .networkError _ => .error "No response received from API server"
  | .setupError m => .error (strOr m "Failed to list deployments")

/-- `EasyDeployClient.getStatus`: returns the body on 2xx, rethrows every
failure as a generic error carrying `error.message || 'Failed to get
deployment status'` — the same shape for HTTP, network and setup errors. -/
def getStatus (outcome : AxiosOutcome) : Except String JVal :=
  match outcome with
  | .ok data => .ok data
  | .httpError _ _ m => .error (strOr m "Failed to get deployment status")
  | .networkError m => .error (strOr m "Failed to get deployment status")
  | .setupError m => .error (strOr m "Failed to get deployment status")

/-- `EasyDeployClient.getLogs`: `response.data.logs || 'No logs available'`
on a 2xx response — on a `null` body the `logs` access throws and the
catch rethrows it generically, like every other failure. -/
def getLogs (outcome : AxiosOutcome) : Except String JVal :=
  match outcome with
  | .ok data =>
    match data.getProp "logs" with
    | .ok l => .ok (jvalOr l (.jstr "No logs available"))
    | .error m => .error (strOr m "Failed to get logs")
  | .httpError _ _ m => .error (strOr m "Failed to get logs")
  | .networkError m => .error (strOr m "Failed to get logs")
  | .setupError m => .error (strOr m "Failed to get logs")

/-- The object `deploy` / `redeploy` resolve with: `success` plus either a
deployment id taken from the response body or an error message string. -/
structure DeployClientResult where
  success : Bool
  deployment_id : Option JVal := none
  error : Option String := none

/-- `EasyDeployClient.deploy`, as a function of the config-load outcome
(file read + YAML parse, which may throw) and of the POST outcome.  The
second component records whether the HTTP request was issued at all.  The
only pre-request validation in the source is `if (!config) throw new
Error('Invalid configuration file')`; no individual field is checked. -/
def deploy (load : Except String JVal) (net : AxiosOutcome) :
    DeployClientResult × Bool :=
  match load with
  | .error m => ({ success := false, error := some (strOr m "Unknown error occurred") }, false)
  | .ok cfg =>
    if cfg.truthy then
      match net with
      | .ok data =>
        match data.getProp "id" with
        | .ok v => ({ success := true, deployment_id := v }, true)
        | .error m =>
            ({ success := false, error := some (strOr m "Unknown error occurred") }, true)
      | .httpError _ _ m =>
          ({ success := false, error := some (strOr m "Unknown error occurred") }, true)
      | .networkError m =>
          ({ success := false, error := some (strOr m "Unknown error occurred") }, true)
      | .setupError m =>
          ({ success := false, error := some (strOr m "Unknown error occurred") }, true)
    else
      ({ success := false, error := some "Invalid configuration file" }, false)

/-- The object `remove` resolves with. -/
structure RemoveClientResult where
  success : Bool
  message : Option JVal := none
  error : Option String := none

/-- `EasyDeployClient.remove`: never throws; catches every failure and
returns `success: false` with the error message. -/
def removeClient (outcome : AxiosOutcome) : RemoveClientResult :=
  match outcome with
  | .ok data =>
    match data.getProp "message" with
    | .ok v =>
        { success := true
          message := some (jvalOr v (.jstr "Deployment removed successfully")) }
    | .error m => { success := false, error := some (strOr m "Failed to remove deployment") }
  | .httpError _ _ m => { success := false, error := some (strOr m "Failed to remove deployment") }
  | .networkError m => { success := false, error := some (strOr m "Failed to remove deployment") }
  | .setupError m => { success := false, error := some (strOr m "Failed to remove deployment") }

/-- The string `error.response?.data?.message || error.message` used by
`redeploy`'s catch branch; the chained accesses are optional (`?.`), so a
`null`/missing body falls back to the message without throwing. -/
def redeployErrMsg (data : Option JVal) (m : String) : String :=
  match data with
  | some d =>
    match d.getField "message" with
    | some v => if v.truthy then jsShow v else m
    | none => m
  | none => m

/-- `EasyDeployClient.redeploy`: never throws; the id field of the success
payload is the plain access `response.data.deployment_id`, whose
`TypeError` on a `null` body is caught (such an error carries no
`response`, so the catch falls back to the thrown message). -/
def redeployClient (outcome : AxiosOutcome) : DeployClientResult :=
  match outcome with
  | .ok data =>
    match data.getProp "deployment_id" with
    | .ok v => { success := true, deployment_id := v }
    | .error m => { success := false, error := some (redeployErrMsg none m) }
  | .httpError _ data m => { success := false, error := some (redeployErrMsg (some data) m) }
  | .networkError m => { success := false, error := some (redeployErrMsg none m) }
  | .setupError m => { success := false, error := some (redeployErrMsg none m) }

/-! ### widget.ts — EasyDeployWidget deployment tracking -/

/-- The widget's lifecycle status union
`'completed' | 'in_progress' | 'failed'`. -/
inductive LifecycleState where
  | completed
  | inProgress
  | failed
deriving DecidableEq

/-- `EasyDeployWidget.mapStatus` (widget.ts): a switch on
`status?.toLowerCase()` whose `running`/`in_progress`/`pending` cases fall
through to the `default` branch.  `none` models a missing (`undefined` or
`null`) status, on which optional chaining yields `undefined`. -/
def mapStatus (status : Option String) : LifecycleState :=
  match status with
  | none => .inProgress
  | some s =>
    if lowerStr s = "success" ∨ lowerStr s = "completed" ∨ lowerStr s = "done" then
      .completed
    else if lowerStr s = "failed" ∨ lowerStr s = "error" then
      .failed
    else
      .inProgress

/-- One element of the widget's `_deployments` array. -/
structure TrackedDeployment where
  id : Option JVal
  name : JVal
  status : LifecycleState
  url : Option JVal := none

/-- One element of the raw array `listDeployments` resolves with, with the
fields the widget reads.  The model restricts `status` to a string or a
missing value; on another value the source would fail inside
`toLowerCase`, a case no claim depends on. -/
structure ServerSummary where
  id : Option JVal := none
  name : Option JVal := none
  status : Option String := none
  url : Option JVal := none

/-- The per-element mapping in `refreshDeployments`:
`{ id: d.id, name: d.name || `Deployment ${d.id}`,
status: this.mapStatus(d.status), url: d.url }`. -/
def toTracked (d : ServerSummary) : TrackedDeployment :=
  { id := d.id
    name := jvalOr d.name (.jstr ("Deployment " ++ jsShowOpt d.id))
    status := mapStatus d.status
    url := d.url }

/-- `EasyDeployWidget.refreshDeployments`, restricted to its effect on
`_deployments` on a successful list call: the assignment
`this._deployments = deployments.map(...)` replaces the whole array. -/
def refreshDeployments (old : List TrackedDeployment)
    (server : List ServerSummary) : List TrackedDeployment :=
  let _ := old
  server.map toTracked

/-- The success-handler of `startNewDeployment` acting on `_deployments`:
`if (result.success)` it unshifts
`{ id: result.deployment_id, name: ..., status: 'in_progress' }`,
otherwise the array is untouched.  `now` is the wall-clock string
interpolated into the name. -/
def startNewDeploymentStep (now : String) (result : DeployClientResult)
    (ds : List TrackedDeployment) : List TrackedDeployment :=
  if result.success then
    { id := result.deployment_id
      name := .jstr ("New Deployment (" ++ now ++ ")")
      status := .inProgress
      url := none } :: ds
  else ds

/-- The success-handler of `redeployApplication` acting on `_deployments`:
the unshift is guarded by `result.success && result.deployment_id`. -/
def redeployStep (now : String) (result : DeployClientResult)
    (ds : List TrackedDeployment) : List TrackedDeployment :=
  if result.success ∧ truthyOpt result.deployment_id then
    { id := result.deployment_id
      name := .jstr ("Redeployment (" ++ now ++ ")")
      status := .inProgress
      url := none } :: ds
  else ds

/-- Number of tracked entries whose id is the string `s`. -/
def countTrackedId (s : String) (ds : List TrackedDeployment) : Nat :=
  (ds.filter (fun d =>
    match d.id with
    | some (.jstr t) => t = s
    | _ => false)).length

/-! ### extension.ts — command handlers and module-level state -/

/-- Truthiness of a possibly-missing string (`undefined` and `''` are
falsy). -/
def strTruthy : Option String → Bool
  | none => false
  | some s => s ≠ ""

/-- The extension's mutable module-level state touched by the modelled
commands: the `lastDeploymentId` cache and the `easydeploy.apiKey`
setting. -/
structure ExtState where
  lastDeploymentId : Option JVal := none
  settingsApiKey : Option String := none

/-- The API-key preamble shared verbatim by the deploy/status/logs/remove
handlers: use the configured key if truthy, otherwise prompt; a falsy
prompt answer cancels the command (`none`), otherwise the answer is saved
to settings and used. -/
def resolveApiKey (settingsKey promptKey : Option String) : Option String :=
  if strTruthy settingsKey then settingsKey
  else
    match promptKey with
    | some k => if k = "" then none else some k
    | none => none

/-- Exit points of the `easydeploy.remove` handler. -/
inductive RemoveExit where
  | noWorkspace
  | cancelledNoKey
  | noActiveDeployment
  | notConfirmed
  | keyMissing
  | removed
  | removeFailed
deriving DecidableEq

/-- The `easydeploy.remove` command handler (extension.ts).  Inputs: the
module state, whether a workspace folder is open, the user's answer to the
API-key prompt (used only if the setting is falsy), the user's answer to
the modal warning, and the outcome `client.remove` would resolve with.
Returns the new state, whether the remove API call was dispatched, and the
exit branch taken. -/
def removeCommand (st : ExtState) (hasWorkspace : Bool)
    (promptKey confirmation : Option String)
    (removeResult : RemoveClientResult) : ExtState × Bool × RemoveExit :=
  if hasWorkspace = false then (st, false, .noWorkspace)
  else
    match resolveApiKey st.settingsApiKey promptKey with
    | none => (st, false, .cancelledNoKey)
    | some key =>
      let st1 : ExtState := { st with settingsApiKey := some key }
      if truthyOpt st1.lastDeploymentId = false then
        (st1, false, .noActiveDeployment)
      else if confirmation ≠ some "Yes" then
        (st1, false, .notConfirmed)
      else if strTruthy st1.settingsApiKey = false then
        (st1, false, .keyMissing)
      else if removeResult.success then
        ({ st1 with lastDeploymentId := none }, true, .removed)
      else
        (st1, true, .removeFailed)

/-- Exit points of the `easydeploy.status` handler. -/
inductive StatusExit where
  | noWorkspace
  | cancelledNoKey
  | keyMissing
  | printedStatus
  | noDeployments
  | listedRecent
  | unexpectedShape
  | errorCaught (msg : String)
deriving DecidableEq

/-- The `easydeploy.status` command handler (extension.ts).  When
`lastDeploymentId` is truthy it calls `getStatus` and only prints; the
list branch (taken otherwise) is the only place the handler assigns
`lastDeploymentId`.  A thrown error is caught and printed.  The
`unexpectedShape` branch stands for a normalized non-array body, on which
the source's array accesses would misbehave; no claim depends on it. -/
def statusCommand (st : ExtState) (hasWorkspace : Bool)
    (promptKey : Option String)
    (statusOutcome listOutcome : AxiosOutcome) : ExtState × StatusExit :=
  if hasWorkspace = false then (st, .noWorkspace)
  else
    match resolveApiKey st.settingsApiKey promptKey with
    | none => (st, .cancelledNoKey)
    | some key =>
      let st1 : ExtState := { st with settingsApiKey := some key }
      if strTruthy st1.settingsApiKey = false then (st1, .keyMissing)
      else if truthyOpt st1.lastDeploymentId then
        match getStatus statusOutcome with
        | .ok _ => (st1, .printedStatus)
        | .error m => (st1, .errorCaught m)
      else
        match listDeployments listOutcome with
        | .error m => (st1, .errorCaught m)
        | .ok (.jarr []) => (st1, .noDeployments)
        | .ok (.jarr (d :: _)) =>
          match d.getProp "id" with
          | .ok idv => ({ st1 with lastDeploymentId := idv }, .listedRecent)
          | .error m => (st1, .errorCaught m)
        | .ok _ => (st1, .unexpectedShape)

/-! ### Concrete fixtures used by counterexamples and witnesses -/

/-- A tracked deployment used to probe reconciliation. -/
def oldTracked : TrackedDeployment :=
  { id := some (.jstr "old-1"), name := .jstr "Old", status := .completed }

/-- A successful deploy result reporting id `d1`. -/
def dupResult : DeployClientResult :=
  { success := true, deployment_id := some (.jstr "d1") }

/-- A parsed config that is a non-empty object yet lacks `name`,
`platform` and `runtime`. -/
def incompleteCfg : JVal := .jobj [("type", .jstr "web")]

/-- An extension state with a configured key and a tracked deployment. -/
def c7State : ExtState :=
  { lastDeploymentId := some (.jstr "d1"), settingsApiKey := some "k" }

/-! ### Claim theorems -/

/-- Helper: on a non-null value, plain property access agrees with the
null-safe lookup. -/
theorem JVal.getProp_of_ne_null (v : JVal) (k : String) (h : v ≠ .jnull) :
    v.getProp k = .ok (v.getField k) := by
  cases v <;> first | exact absurd rfl h | rfl

/-- C1: `mapStatus` is total and case-insensitive on raw status strings;
lowercased `success`/`completed`/`done` map to `completed`,
`failed`/`error` to `failed`, `running`/`in_progress`/`pending` to
`in_progress`, and every unrecognized string also to `in_progress` (never
to `failed` or `completed`); classification depends only on the lowercased
input. -/
theorem mapStatus_classification (s : String) :
    (lowerStr s = "success" ∨ lowerStr s = "completed" ∨ lowerStr s = "done" →
      mapStatus (some s) = .completed) ∧
    (lowerStr s = "failed" ∨ lowerStr s = "error" →
      mapStatus (some s) = .failed) ∧
    (lowerStr s = "running" ∨ lowerStr s = "in_progress" ∨ lowerStr s = "pending" →
      mapStatus (some s) = .inProgress) ∧
    (lowerStr s ∉ ["success", "completed", "done", "failed", "error",
        "running", "in_progress", "pending"] →
      mapStatus (some s) = .inProgress) ∧
    (∀ t : String, lowerStr s = lowerStr t →
      mapStatus (some s) = mapStatus (some t)) := by
  refine ⟨?_, ?_, ?_, ?_, ?_⟩
  · intro h
    simp only [mapStatus]
    rw [if_pos h]
  · intro h
    rcases h with h | h <;> simp only [mapStatus] <;> rw [h] <;> decide
  · intro h
    rcases h with h | h | h <;> simp only [mapStatus] <;> rw [h] <;> decide
  · intro h
    simp only [List.mem_cons, List.not_mem_nil, or_false, not_or] at h
    obtain ⟨h1, h2, h3, h4, h5, -, -, -⟩ := h
    simp [mapStatus, h1, h2, h3, h4, h5]
  · intro t h
    simp only [mapStatus]
    rw [h]

/-- C1 witness: concrete classifications obtained from
`mapStatus_classification`. -/
theorem mapStatus_classification_wit :
    mapStatus (some "SUCCESS") = .completed ∧
    mapStatus (some "Error") = .failed ∧
    mapStatus (some "Pending") = .inProgress ∧
    mapStatus (some "deploying-v2") = .inProgress ∧
    mapStatus (some "DONE") = mapStatus (some "done") :=
  ⟨(mapStatus_classification "SUCCESS").1 (Or.inl (by decide)),
   (mapStatus_classification "Error").2.1 (Or.inr (by decide)),
   (mapStatus_classification "Pending").2.2.1 (Or.inr (Or.inr (by decide))),
   (mapStatus_classification "deploying-v2").2.2.2.1 (by decide),
   (mapStatus_classification "DONE").2.2.2.2 "done" (by decide)⟩

/-- C2 counterexample: the claim says a reconcile retains a locally
tracked id that is absent from the server response; but
`refreshDeployments` applied to a state tracking `old-1` and an empty
server list yields the empty list — the tracked id is gone. -/
theorem refreshDeployments_drops_absent_id :
    refreshDeployments [oldTracked] [] = [] ∧
    oldTracked.id = some (.jstr "old-1") :=
  ⟨rfl, rfl⟩

/-- C2 (amended): `refreshDeployments` replaces the tracked list wholesale
with the mapped server list — the result is independent of the previous
tracked state, and its ids are exactly the server response's ids, so an id
absent from the response is not retained. -/
theorem refreshDeployments_replaces_wholesale (old old' : List TrackedDeployment)
    (server : List ServerSummary) :
    refreshDeployments old server = refreshDeployments old' server ∧
    (refreshDeployments old server).map TrackedDeployment.id
      = server.map ServerSummary.id := by
  refine ⟨rfl, ?_⟩
  simp [refreshDeployments, toTracked]

/-- C3 counterexample: the claim says the optimistic front-insert with an
id already present is a no-op leaving exactly one entry for that id;
starting from the empty (trivially id-unique) state, two inserts reporting
id `d1` leave two entries for `d1`. -/
theorem recordNew_duplicate_inserts :
    countTrackedId "d1"
      (startNewDeploymentStep "t2" dupResult
        (startNewDeploymentStep "t1" dupResult [])) = 2 :=
  rfl

/-- C3 (amended): the front-insert never checks for duplicates — it always
prepends one entry, so each successful deploy reporting id `s` increases
the number of entries with id `s` by one. -/
theorem recordNew_always_prepends (now s : String) (r : DeployClientResult)
    (ds : List TrackedDeployment)
    (hs : r.success = true) (hid : r.deployment_id = some (.jstr s)) :
    (startNewDeploymentStep now r ds).length = ds.length + 1 ∧
    countTrackedId s (startNewDeploymentStep now r ds)
      = countTrackedId s ds + 1 := by
  simp [startNewDeploymentStep, hs, countTrackedId, hid]

/-- C3 witness: `recordNew_always_prepends` at a concrete insert. -/
theorem recordNew_always_prepends_wit :
    (startNewDeploymentStep "t1" dupResult []).length
      = ([] : List TrackedDeployment).length + 1 ∧
    countTrackedId "d1" (startNewDeploymentStep "t1" dupResult [])
      = countTrackedId "d1" [] + 1 :=
  recordNew_always_prepends "t1" "d1" dupResult [] rfl rfl

/-- C4 counterexample: the claim says any body other than a wrapped
deployments list or a bare array normalizes to the empty list; but a body
whose `deployments` field is the (truthy, non-array) number 5 is returned
as-is. -/
theorem listDeployments_passes_truthy_nonarray :
    listDeploymentsData (.jobj [("deployments", .jnum 5)]) = .ok (.jnum 5) ∧
    (JVal.jnum 5).isArr = false :=
  ⟨rfl, rfl⟩

/-- C4 (amended): a wrapped object whose `deployments` field is an array
`L` and the bare array `L` both normalize to `L`; a non-null body that is
not an array and whose `deployments` field is missing or falsy normalizes
to the empty array; but a truthy non-array `deployments` field passes
through unchanged, and a `null` body throws (rethrown as a generic error)
instead of yielding the empty list. -/
theorem listDeployments_normalizes (l : List JVal)
    (rest : List (String × JVal)) (v : JVal)
    (hv0 : v ≠ .jnull)
    (hv1 : truthyOpt (v.getField "deployments") = false)
    (hv2 : v.isArr = false) :
    listDeploymentsData (.jobj (("deployments", .jarr l) :: rest))
      = .ok (.jarr l) ∧
    listDeploymentsData (.jarr l) = .ok (.jarr l) ∧
    listDeploymentsData v = .ok (.jarr []) ∧
    (∃ m, listDeployments (.ok .jnull) = .error m) := by
  refine ⟨rfl, rfl, ?_, ⟨_, rfl⟩⟩
  simp [listDeploymentsData, JVal.getProp_of_ne_null v "deployments" hv0,
    hv1, hv2]

/-- C4 witness: `listDeployments_normalizes` at the spec's own example
body together with an empty-object body. -/
theorem listDeployments_normalizes_wit :
    listDeploymentsData (.jobj [("deployments", .jarr [.jobj [("id", .jstr "a")]])])
      = .ok (.jarr [.jobj [("id", .jstr "a")]]) ∧
    listDeploymentsData (.jarr [.jobj [("id", .jstr "a")]])
      = .ok (.jarr [.jobj [("id", .jstr "a")]]) ∧
    listDeploymentsData (.jobj []) = .ok (.jarr []) ∧
    (∃ m, listDeployments (.ok .jnull) = .error m) :=
  listDeployments_normalizes [.jobj [("id", .jstr "a")]] [] (.jobj [])
    (by simp) rfl rfl

/-- Helper: whenever `lastDeploymentId` is truthy the status handler takes
the `getStatus` branch, which never assigns `lastDeploymentId`. -/
theorem statusCommand_preserves_tracked (st : ExtState) (hasW : Bool)
    (pk : Option String) (o lo : AxiosOutcome)
    (ht : truthyOpt st.lastDeploymentId = true) :
    (statusCommand st hasW pk o lo).1.lastDeploymentId
      = st.lastDeploymentId := by
  cases hasW with
  | false => simp [statusCommand]
  | true =>
    rcases hk : resolveApiKey st.settingsApiKey pk with _ | key
    · simp [statusCommand, hk]
    · rcases Bool.eq_false_or_eq_true (strTruthy (some key)) with hkt | hkt
      · cases hgs : getStatus o <;>
          simp [statusCommand, hk, hkt, ht, hgs]
      · simp [statusCommand, hk, hkt]

/-- C5 counterexample: the claim says a 401 yields a distinct
`Unauthorized` error, distinguishable from a network failure; but
`getStatus` rethrows both as the same generic message-only error — on
equal messages the two results are literally equal. -/
theorem getStatus_401_generic :
    getStatus (.httpError 401 (.jobj [("detail", .jstr "Unauthorized")])
        "Request failed with status code 401")
      = .error "Request failed with status code 401" ∧
    getStatus (.httpError 401 .jnull "boom")
      = getStatus (.networkError "boom") :=
  ⟨rfl, rfl⟩

/-- C5 (amended): `getStatus` on a 401 response returns a generic error
carrying only the axios message (not a typed `Unauthorized` value), the
very same result as for a network error with that message; the tracker
state is unmodified: the status handler's `getStatus` branch never
assigns `lastDeploymentId`. -/
theorem getStatus_401_message_only (d : JVal) (m : String) (st : ExtState)
    (hasW : Bool) (pk : Option String) (lo : AxiosOutcome)
    (hm : m ≠ "") (ht : truthyOpt st.lastDeploymentId = true) :
    getStatus (.httpError 401 d m) = .error m ∧
    getStatus (.httpError 401 d m) = getStatus (.networkError m) ∧
    (statusCommand st hasW pk (.httpError 401 d m) lo).1.lastDeploymentId
      = st.lastDeploymentId := by
  refine ⟨?_, rfl, statusCommand_preserves_tracked st hasW pk _ lo ht⟩
  simp [getStatus, strOr, hm]

/-- C5 witness: `getStatus_401_message_only` at a concrete 401. -/
theorem getStatus_401_message_only_wit :
    getStatus (.httpError 401 .jnull "Request failed with status code 401")
      = .error "Request failed with status code 401" ∧
    getStatus (.httpError 401 .jnull "Request failed with status code 401")
      = getStatus (.networkError "Request failed with status code 401") ∧
    (statusCommand c7State true none
        (.httpError 401 .jnull "Request failed with status code 401")
        (.networkError "x")).1.lastDeploymentId
      = c7State.lastDeploymentId :=
  getStatus_401_message_only .jnull "Request failed with status code 401"
    c7State true none (.networkError "x") (by decide) rfl

/-- C6 counterexample: the claim says a descriptor missing `name`,
`platform` or `runtime` fails validation before any network request; but
`deploy` issues the HTTP request (second component `true`) for a parsed
config that lacks all three, and even reports success. -/
theorem deploy_sends_without_required_fields :
    incompleteCfg.getField "name" = none ∧
    incompleteCfg.getField "platform" = none ∧
    incompleteCfg.getField "runtime" = none ∧
    (deploy (.ok incompleteCfg) (.ok (.jobj [("id", .jstr "d9")]))).2 = true ∧
    (deploy (.ok incompleteCfg) (.ok (.jobj [("id", .jstr "d9")]))).1.success
      = true :=
  ⟨rfl, rfl, rfl, rfl, rfl⟩

/-- C6 (amended): the only pre-request validation in `deploy` is JavaScript
truthiness of the parsed config: the request is issued exactly when the
config load succeeded with a truthy value, and a falsy parsed config fails
with `Invalid configuration file` before any request. -/
theorem deploy_validates_only_nonfalsy (load : Except String JVal)
    (net : AxiosOutcome) :
    ((deploy load net).2 = true ↔ ∃ cfg, load = .ok cfg ∧ cfg.truthy = true) ∧
    (∀ cfg, load = .ok cfg → cfg.truthy = false →
      (deploy load net).1.success = false ∧
      (deploy load net).1.error = some "Invalid configuration file" ∧
      (deploy load net).2 = false) := by
  cases load with
  | error m => simp [deploy]
  | ok cfg =>
    rcases Bool.eq_false_or_eq_true cfg.truthy with h | h
    · cases net with
      | ok data => cases hdp : data.getProp "id" <;> simp [deploy, h, hdp]
      | httpError s d m => simp [deploy, h]
      | networkError m => simp [deploy, h]
      | setupError m => simp [deploy, h]
    · cases net <;> simp [deploy, h]

/-- C6 witness: `deploy_validates_only_nonfalsy` at a falsy parsed config
(`null`, as produced by parsing an empty YAML file). -/
theorem deploy_validates_only_nonfalsy_wit :
    (deploy (.ok .jnull) (.networkError "timeout")).1.success = false ∧
    (deploy (.ok .jnull) (.networkError "timeout")).1.error
      = some "Invalid configuration file" ∧
    (deploy (.ok .jnull) (.networkError "timeout")).2 = false :=
  (deploy_validates_only_nonfalsy (.ok .jnull) (.networkError "timeout")).2
    .jnull rfl rfl

/-- C7: the remove handler dispatches no remove API call and leaves the
tracked deployment id unchanged whenever the modal confirmation answer is
anything other than `Yes`; when the handler actually reaches the
confirmation prompt (workspace open, key configured, id tracked) it exits
through the not-confirmed branch. -/
theorem remove_requires_confirmation (st : ExtState) (hasW : Bool)
    (pk conf : Option String) (r : RemoveClientResult)
    (hconf : conf ≠ some "Yes") :
    (removeCommand st hasW pk conf r).2.1 = false ∧
    (removeCommand st hasW pk conf r).1.lastDeploymentId
      = st.lastDeploymentId ∧
    (strTruthy st.settingsApiKey = true →
      truthyOpt st.lastDeploymentId = true →
      (removeCommand st hasW pk conf r).2.2 =
        (if hasW then RemoveExit.notConfirmed else RemoveExit.noWorkspace)) := by
  cases hasW with
  | false => simp [removeCommand]
  | true =>
    rcases hk : resolveApiKey st.settingsApiKey pk with _ | key
    · refine ⟨by simp [removeCommand, hk], by simp [removeCommand, hk],
        fun hkt _ => ?_⟩
      unfold resolveApiKey at hk
      rw [if_pos hkt] at hk
      rw [hk] at hkt
      exact absurd hkt (by decide)
    · rcases Bool.eq_false_or_eq_true (truthyOpt st.lastDeploymentId)
        with hlt | hlt
      · refine ⟨?_, ?_, fun _ _ => ?_⟩ <;>
          simp [removeCommand, hk, hlt, hconf]
      · exact ⟨by simp [removeCommand, hk, hlt],
          by simp [removeCommand, hk, hlt],
          fun _ ht => absurd ht (by simp [hlt])⟩

/-- C7 witness: `remove_requires_confirmation` with a dismissed dialog
(`none`, the answer when the user closes the modal). -/
theorem remove_requires_confirmation_wit :
    (removeCommand c7State true none none { success := true }).2.1 = false ∧
    (removeCommand c7State true none none { success := true
      }).1.lastDeploymentId = c7State.lastDeploymentId ∧
    (removeCommand c7State true none none { success := true }).2.2
      = RemoveExit.notConfirmed :=
  ⟨(remove_requires_confirmation c7State true none none _ (by decide)).1,
   (remove_requires_confirmation c7State true none none _ (by decide)).2.1,
   (remove_requires_confirmation c7State true none none _ (by decide)).2.2
      rfl rfl⟩

/-- C8 counterexample: the claim says the optimistic front-insert happens
only on a successful deploy response carrying a deployment id; but a 2xx
response with an empty body yields `success: true` with no id, and the
success handler still inserts a record (with an undefined id). -/
theorem deploy_insert_without_id :
    (deploy (.ok (.jobj [("name", .jstr "demo")])) (.ok (.jobj []))).1
      = { success := true, deployment_id := none, error := none } ∧
    startNewDeploymentStep "10:00" { success := true, deployment_id := none } []
      = [{ id := none, name := .jstr "New Deployment (10:00)",
           status := .inProgress, url := none }] :=
  ⟨rfl, rfl⟩

/-- C8 (amended): on a failed deploy result the tracked collection is left
exactly as it was (no entry is added); the front-insert happens exactly on
`success: true`, even when the response carried no deployment id; and a
network error on the deploy call always yields a failed result. -/
theorem deploy_failure_atomic (now : String) (r : DeployClientResult)
    (ds : List TrackedDeployment) :
    (r.success = false → startNewDeploymentStep now r ds = ds) ∧
    (r.success = true → startNewDeploymentStep now r ds =
      { id := r.deployment_id,
        name := .jstr ("New Deployment (" ++ now ++ ")"),
        status := .inProgress, url := none } :: ds) ∧
    (∀ cfg m, (deploy (.ok cfg) (.networkError m)).1.success = false) := by
  refine ⟨fun h => by simp [startNewDeploymentStep, h],
          fun h => by simp [startNewDeploymentStep, h],
          fun cfg m => ?_⟩
  rcases Bool.eq_false_or_eq_true cfg.truthy with h | h <;> simp [deploy, h]

/-- C8 witness: `deploy_failure_atomic` applied to a timeout result. -/
theorem deploy_failure_atomic_wit :
    startNewDeploymentStep "t" { success := false, error := some "timeout" } []
      = ([] : List TrackedDeployment) :=
  (deploy_failure_atomic "t" { success := false, error := some "timeout" } []).1
    rfl

/-- C9: for every config-load and network outcome, `deploy` and `remove`
return a plain result object — `success: true` with no error (and, for
remove, a message), or `success: false` with an error message — while
`getStatus` and `getLogs` rethrow every HTTP and network failure to the
caller. -/
theorem client_results_total (load : Except String JVal)
    (net o : AxiosOutcome) :
    (((deploy load net).1.success = true ∧ (deploy load net).1.error = none) ∨
     ((deploy load net).1.success = false ∧
       ((deploy load net).1.error).isSome = true)) ∧
    (((removeClient o).success = true ∧
       ((removeClient o).message).isSome = true ∧ (removeClient o).error = none) ∨
     ((removeClient o).success = false ∧
       ((removeClient o).error).isSome = true)) ∧
    (∀ s d m, ∃ e, getStatus (.httpError s d m) = Except.error e) ∧
    (∀ m, ∃ e, getStatus (.networkError m) = Except.error e) ∧
    (∀ s d m, ∃ e, getLogs (.httpError s d m) = Except.error e) ∧
    (∀ m, ∃ e, getLogs (.networkError m) = Except.error e) := by
  refine ⟨?_, ?_, fun s d m => ⟨_, rfl⟩, fun m => ⟨_, rfl⟩,
    fun s d m => ⟨_, rfl⟩, fun m => ⟨_, rfl⟩⟩
  · cases load with
    | error m => simp [deploy]
    | ok cfg =>
      rcases Bool.eq_false_or_eq_true cfg.truthy with h | h
      · cases net with
        | ok data => cases hdp : data.getProp "id" <;> simp [deploy, h, hdp]
        | httpError s d m => simp [deploy, h]
        | networkError m => simp [deploy, h]
        | setupError m => simp [deploy, h]
      · cases net <;> simp [deploy, h]
  · cases o with
    | ok data =>
      cases hdp : data.getProp "message" <;> simp [removeClient, hdp]
    | httpError s d m => simp [removeClient]
    | networkError m => simp [removeClient]
    | setupError m => simp [removeClient]

/-- C10 counterexample: the claim says every successful response whose
`logs` field is absent yields the literal `No logs available`; but on a
`null` 2xx body — on which the `logs` field is certainly absent — the
`response.data.logs` access throws and `getLogs` rethrows a generic error
instead of returning the literal. -/
theorem getLogs_throws_on_null_body :
    getLogs (.ok .jnull)
      = .error "TypeError: Cannot read properties of null (reading logs)" ∧
    JVal.jnull.getField "logs" = none :=
  ⟨rfl, rfl⟩

/-- C10 (amended): on a successful HTTP response with a non-null body,
`getLogs` never yields a falsy value: the `logs || 'No logs available'`
default is always truthy, and whenever the `logs` field is absent,
`null`, or the empty string, the result is the literal
`No logs available`; a `null` body instead throws, rethrown as a generic
error. -/
theorem getLogs_nonempty (data : JVal) (hd : data ≠ .jnull) :
    (∃ v, getLogs (.ok data) = .ok v ∧ v.truthy = true) ∧
    (data.getField "logs" = none →
      getLogs (.ok data) = .ok (.jstr "No logs available")) ∧
    (data.getField "logs" = some .jnull →
      getLogs (.ok data) = .ok (.jstr "No logs available")) ∧
    (data.getField "logs" = some (.jstr "") →
      getLogs (.ok data) = .ok (.jstr "No logs available")) := by
  have hp := JVal.getProp_of_ne_null data "logs" hd
  refine ⟨?_, fun h => by simp [getLogs, hp, h, jvalOr],
    fun h => by simp [getLogs, hp, h, jvalOr, JVal.truthy],
    fun h => by simp [getLogs, hp, h, jvalOr, JVal.truthy]⟩
  simp only [getLogs, hp]
  cases data.getField "logs" with
  | none => exact ⟨.jstr "No logs available", rfl, rfl⟩
  | some v =>
    by_cases h : v.truthy = true
    · exact ⟨v, by simp [jvalOr, h], h⟩
    · exact ⟨.jstr "No logs available", by simp [jvalOr, h], rfl⟩

/-- C10 witness: `getLogs_nonempty` on a body with no `logs` field and on
one whose `logs` field is empty. -/
theorem getLogs_nonempty_wit :
    (∃ v, getLogs (.ok (.jobj [])) = .ok v ∧ v.truthy = true) ∧
    getLogs (.ok (.jobj [])) = .ok (.jstr "No logs available") ∧
    getLogs (.ok (.jobj [("logs", .jstr "")]))
      = .ok (.jstr "No logs available") :=
  ⟨(getLogs_nonempty (.jobj []) (by simp)).1,
   (getLogs_nonempty (.jobj []) (by simp)).2.1 rfl,
   (getLogs_nonempty (.jobj [("logs", .jstr "")]) (by simp)).2.2.2 rfl⟩

end EasyDeploy
